import Mathlib

/-!
Shallow embedding of the e-commerce backend (`src/main.py` and `src/schemas.py`).

Documents of the store are modelled as association lists from field names to
BSON-like values; the document database handle `db`, together with the helper
`create_document` (both defined in `database.py`, which is not part of `src/`),
is modelled from the spec as an explicit `Store` state threaded through the
handlers.  Pydantic request validation is modelled as a function from a payload
record (with `Option` fields for values the client may omit) to an `Option` of
the validated model, `none` meaning a `ValidationError` (a 4xx response raised
before the handler body runs).  Python floats carrying prices are modelled as
rationals; the claims about them only concern sign comparisons.
-/

namespace FlamesBlue

/-- The validated `OrderItem` model of `main.py` (`qty ≥ 1`, `unitPrice ≥ 0`). -/
structure OrderItem where
  productId : String
  title : String
  qty : Int
  unitPrice : ℚ
  deriving DecidableEq, Repr

/-- The validated `Customer` model of `main.py` (`name` required). -/
structure Customer where
  name : String
  email : Option String
  phone : Option String
  address : Option String
  deriving DecidableEq, Repr

/-- A BSON-like value stored in a document field.  The only array-of-string
fields this system writes are `images`/`materials`, and the only nested
subdocuments it writes are an order's `customer` object and its `items` list,
so those carry their typed shapes. -/
inductive Value where
  | str (s : String)
  | num (q : ℚ)
  | arr (elems : List String)
  | oid (hexId : String)
  | customerDoc (c : Customer)
  | itemsDoc (l : List OrderItem)
  | null
  deriving DecidableEq, Repr

/-- A document: an association list from field names to values
(Python dicts have unique keys; documents built by this system do). -/
abbrev Doc := List (String × Value)

/-- The sixteen lowercase hex digits, used to render store identifiers. -/
def hexAlphabet : List Char := "0123456789abcdef".toList

/-- A character allowed in the string form of a store identifier
(`bson.ObjectId` accepts both cases of hex). -/
def isHexChar (c : Char) : Bool := ("0123456789abcdefABCDEF".toList).contains c

/-- `ObjectId.is_valid` on a string: exactly 24 hex characters. -/
def isValidObjectId (s : String) : Bool :=
  s.toList.length == 24 && s.toList.all isHexChar

/-- Lowercase a list of characters. -/
def lowerChars (l : List Char) : List Char := l.map Char.toLower

/-- `ObjectId(s)`: fails (raises) unless `s` is a valid 24-hex-char identifier;
a valid identifier is normalised to its canonical lowercase rendering. -/
def parseObjectId (s : String) : Option String :=
  if isValidObjectId s then some (String.mk (lowerChars s.toList)) else none

/-- The hex digit character for `n % 16`. -/
def hexChar (n : Nat) : Char := hexAlphabet.getD (n % 16) '0'

/-- `k` hex digit characters of `n`, most significant first. -/
def hexDigitsAux : Nat → Nat → List Char
  | 0, _ => []
  | k + 1, n => hexDigitsAux k (n / 16) ++ [hexChar n]

/-- Render a counter as a 24-hex-character store identifier (the model of
store-assigned `ObjectId` generation). -/
def natToHex24 (n : Nat) : String := String.mk (hexDigitsAux 24 n)

/-- Modelled from the spec: the document store behind the `db` handle of the
missing `database.py`.  Two collections (`product` and `order`) hold documents;
`nextId` drives assignment of fresh store identifiers. -/
structure Store where
  product : List Doc
  order : List Doc
  nextId : Nat
  deriving DecidableEq, Repr

/-- Modelled from the spec: `create_document(collection, data)` from the missing
`database.py` — persists exactly one new document in the named collection,
assigns a fresh store identifier as its `_id`, and returns that identifier
rendered as a string. -/
def create_document (collection : String) (data : Doc) (s : Store) :
    String × Store :=
  let newId := natToHex24 s.nextId
  let doc := data ++ [("_id", Value.oid newId)]
  if collection = "product" then
    (newId, { s with product := s.product ++ [doc], nextId := s.nextId + 1 })
  else
    (newId, { s with order := s.order ++ [doc], nextId := s.nextId + 1 })

/-- Modelled from the spec: the store's `find_one({"_id": oid})` — the first
document of the collection whose `_id` equals the given identifier, if any. -/
def findOne (docs : List Doc) (hexId : String) : Option Doc :=
  docs.find? (fun d => d.lookup "_id" == some (Value.oid hexId))

/-- Python `str()` on a stored value; only the `oid` case is ever reached by
the handlers (the `_id` field always holds a store identifier). -/
def pyStr : Value → String
  | .str s => s
  | .oid s => s
  | .num q => toString q
  | .arr _ => ""
  | .customerDoc _ => ""
  | .itemsDoc _ => ""
  | .null => "None"

/-- `serialize_doc` from `main.py`: on a falsy (empty) document, return it
unchanged; otherwise copy the document, pop `_id` if present, and add a string
field `id` holding `str(_id)`. -/
def serialize_doc (doc : Doc) : Doc :=
  if doc = [] then doc
  else
    match doc.lookup "_id" with
    | some v => doc.filter (fun kv => !(kv.1 == "_id")) ++ [("id", Value.str (pyStr v))]
    | none => doc

/-- A product-creation request body before validation: each field the client
may omit is an `Option` (type errors are outside the model). -/
structure ProductPayload where
  title : Option String
  description : Option String
  price : Option ℚ
  currency : Option String
  category : Option String
  images : Option (List String)
  materials : Option (List String)
  stock : Option Int
  vendor : Option String
  artisanStory : Option String
  deriving DecidableEq, Repr

/-- The validated `ProductIn` model of `main.py` (defaults applied). -/
structure ProductIn where
  title : String
  description : Option String
  price : ℚ
  currency : String
  category : String
  images : List String
  materials : List String
  stock : Int
  vendor : Option String
  artisanStory : Option String
  deriving DecidableEq, Repr

/-- Pydantic validation of `ProductIn` (`main.py` lines 49-59): `title`,
`price`, `category` required; `price ≥ 0`; defaults `currency="INR"`,
`images=[]`, `materials=[]`, `stock=0`.  Note: `main.py`'s `ProductIn` puts no
lower bound on `stock`. -/
def validateProduct (p : ProductPayload) : Option ProductIn :=
  match p.title, p.price, p.category with
  | some title, some price, some category =>
    if price < 0 then none
    else
      some { title := title
             description := p.description
             price := price
             currency := p.currency.getD "INR"
             category := category
             images := p.images.getD []
             materials := p.materials.getD []
             stock := p.stock.getD 0
             vendor := p.vendor
             artisanStory := p.artisanStory }
  | _, _, _ => none

/-- An optional string rendered as a BSON value (`None` becomes null). -/
def optStr : Option String → Value
  | some s => Value.str s
  | none => Value.null

/-- `payload.model_dump()` for a validated `ProductIn`. -/
def dumpProduct (p : ProductIn) : Doc :=
  [("title", Value.str p.title),
   ("description", optStr p.description),
   ("price", Value.num p.price),
   ("currency", Value.str p.currency),
   ("category", Value.str p.category),
   ("images", Value.arr p.images),
   ("materials", Value.arr p.materials),
   ("stock", Value.num p.stock),
   ("vendor", optStr p.vendor),
   ("artisanStory", optStr p.artisanStory)]

/-- One entry of an order's `items` list, before value validation (its four
fields present; type errors are outside the model). -/
structure OrderItemPayload where
  productId : String
  title : String
  qty : Int
  unitPrice : ℚ
  deriving DecidableEq, Repr

/-- An order's `customer` object before validation. -/
structure CustomerPayload where
  name : Option String
  email : Option String
  phone : Option String
  address : Option String
  deriving DecidableEq, Repr

/-- An order-creation request body before validation. -/
structure OrderPayload where
  customer : Option CustomerPayload
  items : Option (List OrderItemPayload)
  subtotal : Option ℚ
  shipping : Option ℚ
  total : Option ℚ
  status : Option String
  deriving DecidableEq, Repr

/-- The validated `OrderIn` model of `main.py` (defaults applied). -/
structure OrderIn where
  customer : Customer
  items : List OrderItem
  subtotal : ℚ
  shipping : ℚ
  total : ℚ
  status : String
  deriving DecidableEq, Repr

/-- Pydantic validation of one `OrderItem` (`main.py` lines 61-65):
fails iff `qty < 1` or `unitPrice < 0`. -/
def validateOrderItem (it : OrderItemPayload) : Option OrderItem :=
  if it.qty < 1 then none
  else if it.unitPrice < 0 then none
  else some { productId := it.productId, title := it.title,
              qty := it.qty, unitPrice := it.unitPrice }

/-- Pydantic validation of `Customer` (`main.py` lines 67-71):
`name` required, the rest optional. -/
def validateCustomer (c : CustomerPayload) : Option Customer :=
  match c.name with
  | some n => some { name := n, email := c.email, phone := c.phone,
                     address := c.address }
  | none => none

/-- Validate each item of the `items` list in order. -/
def validateItems : List OrderItemPayload → Option (List OrderItem)
  | [] => some []
  | it :: rest =>
    match validateOrderItem it, validateItems rest with
    | some v, some vs => some (v :: vs)
    | _, _ => none

/-- Pydantic validation of `OrderIn` (`main.py` lines 73-79): `customer`,
`items`, `subtotal`, `total` required; each item validated; defaults
`shipping=0`, `status="received"`.  Note: `items: List[OrderItem]` accepts an
empty list — pydantic imposes no minimum length. -/
def validateOrder (p : OrderPayload) : Option OrderIn :=
  match p.customer, p.items, p.subtotal, p.total with
  | some cp, some itemsP, some subtotal, some total =>
    match validateCustomer cp, validateItems itemsP with
    | some customer, some items =>
      some { customer := customer, items := items, subtotal := subtotal,
             shipping := p.shipping.getD 0, total := total,
             status := p.status.getD "received" }
    | _, _ => none
  | _, _, _, _ => none

/-- The outcome of one handler call: a successful JSON body, an
`HTTPException` with a status code and detail, or an uncaught exception
(surfaced by the framework as a generic 500). -/
inductive HOut (α : Type) where
  | ok (val : α)
  | httpError (code : Nat) (detail : String)
  | exn (msg : String)
  deriving DecidableEq, Repr

/-- Does `(pat, text)` match case-insensitively at the head of `text`? -/
def headMatch : List Char → List Char → Bool
  | [], _ => true
  | _ :: _, [] => false
  | a :: p, b :: l => a == b && headMatch p l

/-- Is `pat` a contiguous sublist of `text`? -/
def hasSub (pat : List Char) : List Char → Bool
  | [] => pat.isEmpty
  | c :: rest => headMatch pat (c :: rest) || hasSub pat rest

/-- Modelled from the spec: the store's `{"$regex": q, "$options": "i"}`
title filter — a case-insensitive substring query over the title. -/
def ciContains (pat text : String) : Bool :=
  hasSub (lowerChars pat.toList) (lowerChars text.toList)

/-- The filter dict built by `list_products`: `category` is added only when
truthy (non-`None` and non-empty), and likewise `q` as a case-insensitive
title query. -/
def buildFilter (category q : Option String) : Option String × Option String :=
  ((match category with
    | some c => if c = "" then none else some c
    | none => none),
   (match q with
    | some s => if s = "" then none else some s
    | none => none))

/-- Does a document satisfy the filter dict of `list_products`?  An exact
equality match on `category` and a case-insensitive substring match on
`title` (a non-string or absent field does not match). -/
def matchesFilter (flt : Option String × Option String) (d : Doc) : Bool :=
  (match flt.1 with
   | some c => d.lookup "category" == some (Value.str c)
   | none => true)
  && (match flt.2 with
      | some pat =>
        (match d.lookup "title" with
         | some (Value.str t) => ciContains pat t
         | _ => false)
      | none => true)

/-- The default of the `limit` query parameter of `list_products`. -/
def listProductsDefaultLimit : Int := 100

/-- `list_products` (`main.py` lines 91-100): 500 if the store handle is
absent; otherwise filter the `product` collection, truncate the result to
`min(limit, 200)` documents, and serialize each.  The store's cursor
truncation is modelled from the spec as bounding the result count. -/
def list_products (db : Option Store) (category q : Option String)
    (limit : Int) : HOut (List Doc) :=
  match db with
  | none => .httpError 500 "Database not configured"
  | some s =>
    let flt := buildFilter category q
    let items := (s.product.filter (matchesFilter flt)).take (min limit 200).toNat
    .ok (items.map serialize_doc)

/-- `list_products` with its declared default `limit=100`. -/
def list_products_default (db : Option Store) (category q : Option String) :
    HOut (List Doc) :=
  list_products db category q listProductsDefaultLimit

/-- `get_product` (`main.py` lines 103-113): 500 if the store handle is
absent; `ObjectId(product_id)` and the lookup run inside `try`, any failure
leaving `obj = None`; a falsy `obj` yields 404 "Product not found". -/
def get_product (db : Option Store) (product_id : String) : HOut Doc :=
  match db with
  | none => .httpError 500 "Database not configured"
  | some s =>
    let obj :=
      match parseObjectId product_id with
      | none => none
      | some oid => findOne s.product oid
    match obj with
    | none => .httpError 404 "Product not found"
    | some d =>
      if d = [] then .httpError 404 "Product not found"
      else .ok (serialize_doc d)

/-- `create_product` (`main.py` lines 116-121): pydantic validation happens
before the handler body (422, store untouched); the body calls
`create_document` and re-reads the document with no `db is None` guard — with
an absent handle the store call itself blows up as an uncaught exception. -/
def create_product (db : Option Store) (payload : ProductPayload) :
    HOut (Option Doc) × Option Store :=
  match validateProduct payload with
  | none => (.httpError 422 "validation error", db)
  | some pin =>
    match db with
    | none => (.exn "store call without initialized connection", none)
    | some s =>
      let res := create_document "product" (dumpProduct pin) s
      match parseObjectId res.1 with
      | none => (.exn "Invalid objectid", some res.2)
      | some oid => (.ok ((findOne res.2.product oid).map serialize_doc), some res.2)

/-- `payload.model_dump()` for a validated `OrderIn`. -/
def dumpOrder (o : OrderIn) : Doc :=
  [("customer", Value.customerDoc o.customer),
   ("items", Value.itemsDoc o.items),
   ("subtotal", Value.num o.subtotal),
   ("shipping", Value.num o.shipping),
   ("total", Value.num o.total),
   ("status", Value.str o.status)]

/-- `create_order` (`main.py` lines 124-128): same shape as `create_product`,
against the `order` collection, and likewise without a `db is None` guard. -/
def create_order (db : Option Store) (payload : OrderPayload) :
    HOut (Option Doc) × Option Store :=
  match validateOrder payload with
  | none => (.httpError 422 "validation error", db)
  | some oin =>
    match db with
    | none => (.exn "store call without initialized connection", none)
    | some s =>
      let res := create_document "order" (dumpOrder oin) s
      match parseObjectId res.1 with
      | none => (.exn "Invalid objectid", some res.2)
      | some oid => (.ok ((findOne res.2.order oid).map serialize_doc), some res.2)

/-- `read_root` (`main.py` lines 85-87). -/
def read_root : String := "Flames.Blue API running"

/-- The configuration environment as the diagnostics endpoint reads it:
`os.getenv` yields `none` when a variable is unset. -/
structure Env where
  databaseUrl : Option String
  databaseName : Option String
  deriving DecidableEq, Repr

/-- Python truthiness of an `os.getenv` result (`None` and `""` are falsy). -/
def envTruthy : Option String → Bool
  | some s => s ≠ ""
  | none => false

/-- The JSON body of the `/test` diagnostics endpoint. -/
structure DiagResponse where
  backend : String
  database : String
  database_url : Option String
  database_name : Option String
  connection_status : String
  collections : List String
  deriving DecidableEq, Repr

/-- `test_database` (`main.py` lines 131-157).  The `db` handle together with
the outcome of `db.list_collection_names()` is modelled from the spec as
`Option (Except String (List String))`: `none` for an absent handle, `.error e`
for a store probe that raises with message `e`.  `database_url` reports
presence only, while `database_name` is `os.getenv("DATABASE_NAME") or
"❌ Not Set"` — the variable's value itself. -/
def test_database (db : Option (Except String (List String))) (env : Env) :
    DiagResponse :=
  let base : DiagResponse :=
    { backend := "✅ Running"
      database := "❌ Not Available"
      database_url := none
      database_name := none
      connection_status := "Not Connected"
      collections := [] }
  match db with
  | none => { base with database := "❌ Database not initialized" }
  | some colsResult =>
    let r1 : DiagResponse :=
      { base with
        database := "✅ Available"
        database_url := some (if envTruthy env.databaseUrl then "✅ Set" else "❌ Not Set")
        database_name := some (match env.databaseName with
          | some n => if n = "" then "❌ Not Set" else n
          | none => "❌ Not Set") }
    match colsResult with
    | .ok cols =>
      { r1 with
        collections := cols
        database := "✅ Connected & Working"
        connection_status := "Connected" }
    | .error e =>
      { r1 with database := "⚠️ Connected but error: " ++ e.take 80 }

/-! ## Association-list lemmas shared by the theorems -/

lemma lookup_append (k : String) (l₁ l₂ : Doc) :
    (l₁ ++ l₂).lookup k = ((l₁.lookup k).or (l₂.lookup k)) := by
  induction l₁ with
  | nil => simp [List.lookup]
  | cons a t ih =>
    rcases a with ⟨k', v⟩
    by_cases h : k = k'
    · simp [List.lookup, h]
    · have hb : (k == k') = false := beq_eq_false_iff_ne.2 h
      simp [List.lookup, hb, ih]

lemma lookup_filter_ne (k x : String) (h : k ≠ x) (d : Doc) :
    (d.filter (fun kv => !(kv.1 == x))).lookup k = d.lookup k := by
  induction d with
  | nil => rfl
  | cons a t ih =>
    rcases a with ⟨k', v⟩
    rw [List.filter_cons]
    cases hx : (k' == x) with
    | true =>
      have hkk : (k == k') = false := by
        have : k' = x := eq_of_beq hx
        exact beq_eq_false_iff_ne.2 (by simp [this, h])
      simp [List.lookup, hkk, ih]
    | false =>
      cases hkk : (k == k') <;> simp [List.lookup, hkk, ih]

lemma lookup_filter_self (x : String) (d : Doc) :
    (d.filter (fun kv => !(kv.1 == x))).lookup x = none := by
  induction d with
  | nil => rfl
  | cons a t ih =>
    rcases a with ⟨k', v⟩
    rw [List.filter_cons]
    cases hx : (k' == x) with
    | true => simp [ih]
    | false =>
      have hkk : (x == k') = false := by
        have : ¬ k' = x := by simpa using (beq_eq_false_iff_ne.1 hx)
        exact beq_eq_false_iff_ne.2 (fun hh => this hh.symm)
      simp [List.lookup, hkk, ih]

lemma lookup_serialize_doc (d : Doc) (k : String) (h1 : k ≠ "id") (h2 : k ≠ "_id") :
    (serialize_doc d).lookup k = d.lookup k := by
  unfold serialize_doc
  split
  · rfl
  · split
    · rename_i v hv
      rw [lookup_append, lookup_filter_ne k "_id" h2]
      rcases hk : d.lookup k with _ | w
      · have hb : (k == "id") = false := beq_eq_false_iff_ne.2 h1
        simp [List.lookup, hb]
      · rfl
    · rfl

/-! ## Claim theorems -/

/-- C8: for every persisted record (a document carrying a store-assigned
`_id` and, as every record this system writes, no pre-existing `id` field),
the public representation produced by `serialize_doc` has a string `id` equal
to the rendered store identifier, no `_id` field, and every other field
unchanged. -/
theorem serialize_doc_public_id (d : Doc) (i : String)
    (hid : d.lookup "_id" = some (Value.oid i)) (hno : d.lookup "id" = none) :
    (serialize_doc d).lookup "id" = some (Value.str i)
    ∧ (serialize_doc d).lookup "_id" = none
    ∧ ∀ k, k ≠ "id" → k ≠ "_id" → (serialize_doc d).lookup k = d.lookup k := by
  have hne : d ≠ [] := by
    rintro rfl
    simp [List.lookup] at hid
  have hser : serialize_doc d =
      d.filter (fun kv => !(kv.1 == "_id")) ++ [("id", Value.str i)] := by
    unfold serialize_doc
    rw [if_neg hne, hid]
    rfl
  refine ⟨?_, ?_, ?_⟩
  · rw [hser, lookup_append, lookup_filter_ne "id" "_id" (by decide) d, hno]
    rfl
  · rw [hser, lookup_append, lookup_filter_self]
    rfl
  · intro k h1 h2
    rw [hser, lookup_append, lookup_filter_ne k "_id" h2]
    rcases hk : d.lookup k with _ | w
    · have hb : (k == "id") = false := beq_eq_false_iff_ne.2 h1
      simp [List.lookup, hb]
    · rfl

/-- Witness for C8 at a concrete stored product document. -/
theorem serialize_doc_public_id_witness :
    (serialize_doc [("title", Value.str "Clay Pot"),
        ("_id", Value.oid "507f1f77bcf86cd799439011")]).lookup "id"
      = some (Value.str "507f1f77bcf86cd799439011")
    ∧ (serialize_doc [("title", Value.str "Clay Pot"),
        ("_id", Value.oid "507f1f77bcf86cd799439011")]).lookup "_id" = none
    ∧ ∀ k, k ≠ "id" → k ≠ "_id" →
        (serialize_doc [("title", Value.str "Clay Pot"),
          ("_id", Value.oid "507f1f77bcf86cd799439011")]).lookup k
        = ([("title", Value.str "Clay Pot"),
            ("_id", Value.oid "507f1f77bcf86cd799439011")] : Doc).lookup k :=
  serialize_doc_public_id _ _ (by decide) (by decide)

/-- The payload of the C3 failing input: a well-formed product body whose
`stock` is the negative integer `-5`. -/
def stockNegPayload : ProductPayload :=
  { title := some "Clay Pot", description := none, price := some 250,
    currency := none, category := some "pottery", images := none,
    materials := none, stock := some (-5), vendor := none, artisanStory := none }

/-- C3: `main.py`'s `ProductIn` puts no lower bound on `stock`, so
product-creation validation accepts a payload with `stock = -5` and keeps the
negative value — contradicting the non-negative `stock` declared both by the
spec and by `schemas.py`'s `Product` (`ge=0`). -/
theorem validateProduct_accepts_negative_stock :
    (validateProduct stockNegPayload).map ProductIn.stock = some (-5) := by
  decide

/-- C4: for every requested `limit`, `list_products` returns at most 200
records, and the declared default of the `limit` parameter is 100. -/
theorem list_products_at_most_200 (s : Store) (category q : Option String)
    (limit : Int) :
    ∃ l, list_products (some s) category q limit = .ok l ∧ l.length ≤ 200
      ∧ list_products_default (some s) category q
          = list_products (some s) category q 100 := by
  refine ⟨_, rfl, ?_, rfl⟩
  have h1 : (min limit 200).toNat ≤ 200 := by
    exact Int.toNat_le_toNat (min_le_right limit 200)
  rw [List.length_map]
  calc ((s.product.filter (matchesFilter (buildFilter category q))).take
          (min limit 200).toNat).length
      ≤ (min limit 200).toNat := by simp [List.length_take]
    _ ≤ 200 := h1

/-- C5: `get_product` answers the identical `404 "Product not found"` response
both when the identifier fails to parse as an `ObjectId` and when it parses
but no record matches. -/
theorem get_product_notfound_merged (s : Store) (pid : String)
    (h : parseObjectId pid = none
      ∨ ∃ oid, parseObjectId pid = some oid ∧ findOne s.product oid = none) :
    get_product (some s) pid = .httpError 404 "Product not found" := by
  rcases h with h | ⟨oid, h1, h2⟩
  · simp [get_product, h]
  · simp [get_product, h1, h2]

/-- Witness for C5 at the spec's two example identifiers: a malformed one and
a well-formed but absent one, against a store with an empty `product`
collection. -/
theorem get_product_notfound_merged_witness :
    get_product (some ⟨[], [], 0⟩) "not-a-valid-id-format"
      = .httpError 404 "Product not found"
    ∧ get_product (some ⟨[], [], 0⟩) "507f1f77bcf86cd799439011"
      = .httpError 404 "Product not found" :=
  ⟨get_product_notfound_merged _ _ (Or.inl (by decide)),
   get_product_notfound_merged _ _
     (Or.inr ⟨"507f1f77bcf86cd799439011", by decide, rfl⟩)⟩

/-- C10: an empty-string `category` (and likewise an empty-string `q`) is
falsy in Python, so `list_products` builds no filter for it, behaving exactly
as if the argument were absent; a non-empty `category` filters by exact
equality on the `category` field. -/
theorem list_products_category_semantics (s : Store) (cat q : Option String)
    (limit : Int) (c : String) (hc : c ≠ "") :
    list_products (some s) (some "") q limit = list_products (some s) none q limit
    ∧ list_products (some s) cat (some "") limit
        = list_products (some s) cat none limit
    ∧ ∀ l, list_products (some s) (some c) q limit = .ok l →
        ∀ r ∈ l, r.lookup "category" = some (Value.str c) := by
  refine ⟨rfl, rfl, ?_⟩
  intro l hl r hr
  simp only [list_products, HOut.ok.injEq] at hl
  rw [← hl] at hr
  rcases List.mem_map.1 hr with ⟨d, hd, rfl⟩
  have hpd : matchesFilter (buildFilter (some c) q) d = true :=
    (List.mem_filter.1 (List.take_subset _ _ hd)).2
  have hflt : (buildFilter (some c) q).1 = some c := by
    simp [buildFilter, hc]
  unfold matchesFilter at hpd
  rw [hflt] at hpd
  rw [Bool.and_eq_true] at hpd
  have hcat : (d.lookup "category" == some (Value.str c)) = true := hpd.1
  rw [lookup_serialize_doc d "category" (by decide) (by decide)]
  exact eq_of_beq hcat

/-- Witness for C10 at a one-product store and the category `"pottery"`. -/
theorem list_products_category_semantics_witness :
    list_products (some ⟨[], [], 0⟩) (some "") none 100
      = list_products (some ⟨[], [], 0⟩) none none 100
    ∧ list_products (some ⟨[], [], 0⟩) none (some "") 100
      = list_products (some ⟨[], [], 0⟩) none none 100
    ∧ ∀ l, list_products (some ⟨[], [], 0⟩) (some "pottery") none 100 = .ok l →
        ∀ r ∈ l, r.lookup "category" = some (Value.str "pottery") :=
  list_products_category_semantics ⟨[], [], 0⟩ none none 100 "pottery" (by decide)

/-- C6: product-creation validation rejects a payload whose `price` is
negative or whose `title` or `category` is missing, and on such a failure the
handler body never runs: the response is the 4xx validation error and the
store handle is returned untouched (no record persisted). -/
theorem create_product_validation_guard (db : Option Store) (p : ProductPayload)
    (h : p.title = none ∨ p.category = none ∨ ∃ pr, p.price = some pr ∧ pr < 0) :
    validateProduct p = none
    ∧ create_product db p = (.httpError 422 "validation error", db) := by
  have hv : validateProduct p = none := by
    rcases h with h | h | ⟨pr, hpr, hneg⟩
    · rcases h2 : p.price with _ | pr <;> rcases h3 : p.category with _ | c <;>
        simp [validateProduct, h, h2, h3]
    · rcases h1 : p.title with _ | t <;> rcases h2 : p.price with _ | pr <;>
        simp [validateProduct, h, h1, h2]
    · rcases h1 : p.title with _ | t <;> rcases h3 : p.category with _ | c <;>
        simp [validateProduct, hpr, h1, h3, hneg]
  refine ⟨hv, ?_⟩
  unfold create_product
  rw [hv]

/-- Witness for C6 at a payload with `price = -1`. -/
theorem create_product_validation_guard_witness :
    validateProduct
        { title := some "Clay Pot", description := none, price := some (-1),
          currency := none, category := some "pottery", images := none,
          materials := none, stock := none, vendor := none,
          artisanStory := none } = none
    ∧ create_product (some ⟨[], [], 0⟩)
        { title := some "Clay Pot", description := none, price := some (-1),
          currency := none, category := some "pottery", images := none,
          materials := none, stock := none, vendor := none,
          artisanStory := none }
      = (.httpError 422 "validation error", some ⟨[], [], 0⟩) :=
  create_product_validation_guard _ _ (Or.inr (Or.inr ⟨-1, rfl, by decide⟩))

/-- A well-formed product payload (used to exercise the create handlers). -/
def validProductPayload : ProductPayload :=
  { title := some "Clay Pot", description := none, price := some 250,
    currency := none, category := some "pottery", images := none,
    materials := none, stock := none, vendor := none, artisanStory := none }

/-- A well-formed order payload (used to exercise the create handlers). -/
def validOrderPayload : OrderPayload :=
  { customer := some ⟨some "Asha", none, none, none⟩,
    items := some [⟨"p1", "Clay Pot", 1, 250⟩],
    subtotal := some 250, shipping := none, total := some 250, status := none }

/-- C7 counterexample: with the store handle absent, `create_product` and
`create_order` do not answer the ConfigurationError 500 response — `main.py`
puts no `db is None` check in either handler, so they proceed straight into
the store call. -/
theorem create_handlers_skip_db_guard :
    (create_product none validProductPayload).1
      ≠ HOut.httpError 500 "Database not configured"
    ∧ (create_order none validOrderPayload).1
      ≠ HOut.httpError 500 "Database not configured" := by
  decide

/-- C7 as amended: only `list_products` and `get_product` check the store
handle at the top and fail with the 500 "Database not configured" response;
`create_product` and `create_order` never produce that response — with the
handle absent they run into the store call instead. -/
theorem db_guard_only_in_list_and_get (cat q : Option String) (limit : Int)
    (pid : String) (p : ProductPayload) (o : OrderPayload) :
    list_products none cat q limit = .httpError 500 "Database not configured"
    ∧ get_product none pid = .httpError 500 "Database not configured"
    ∧ (create_product none p).1 ≠ .httpError 500 "Database not configured"
    ∧ (create_order none o).1 ≠ .httpError 500 "Database not configured" := by
  refine ⟨rfl, rfl, ?_, ?_⟩
  · rcases hv : validateProduct p with _ | pin <;> simp [create_product, hv]
  · rcases hv : validateOrder o with _ | oin <;> simp [create_order, hv]

/-- C9 counterexample: two environments in which every configuration variable
is set in one iff in the other (both set both), differing only in the value of
`DATABASE_NAME` — the diagnostics responses differ, because `test_database`
writes `os.getenv("DATABASE_NAME")` itself into the response. -/
theorem test_database_echoes_database_name :
    test_database (some (.ok []))
        { databaseUrl := some "mongodb://h/db", databaseName := some "dbA" }
      ≠ test_database (some (.ok []))
        { databaseUrl := some "mongodb://h/db", databaseName := some "dbB" } := by
  decide

/-- C9 as amended: the diagnostics endpoint reports `DATABASE_URL` by presence
(truthiness) only — two environments agreeing on its truthiness and on the
value of `DATABASE_NAME` receive identical responses even when the URL values
differ — but it echoes the value of `DATABASE_NAME` rather than its presence. -/
theorem test_database_url_presence_only
    (db : Option (Except String (List String))) (e₁ e₂ : Env)
    (hname : e₁.databaseName = e₂.databaseName)
    (hurl : envTruthy e₁.databaseUrl = envTruthy e₂.databaseUrl) :
    test_database db e₁ = test_database db e₂ := by
  rcases db with _ | cr
  · rfl
  · cases cr <;> simp [test_database, hname, hurl]

/-- Witness for C9's amended theorem: two different connection strings, both
set, with the same database name, give identical diagnostics responses. -/
theorem test_database_url_presence_only_witness :
    test_database (some (.ok ["product"]))
        { databaseUrl := some "mongodb://a", databaseName := some "shop" }
      = test_database (some (.ok ["product"]))
        { databaseUrl := some "mongodb://b", databaseName := some "shop" } :=
  test_database_url_presence_only _ _ _ rfl rfl

/-- An order item fails validation exactly when `qty < 1` or `unitPrice < 0`. -/
lemma validateOrderItem_eq_none (it : OrderItemPayload) :
    validateOrderItem it = none ↔ it.qty < 1 ∨ it.unitPrice < 0 := by
  unfold validateOrderItem
  by_cases h1 : it.qty < 1
  · simp [h1]
  · by_cases h2 : it.unitPrice < 0 <;> simp [h1, h2]

/-- The `items` list fails validation exactly when some member fails. -/
lemma validateItems_eq_none (l : List OrderItemPayload) :
    validateItems l = none ↔ ∃ it ∈ l, validateOrderItem it = none := by
  induction l with
  | nil => simp [validateItems]
  | cons a rest ih =>
    constructor
    · intro h
      rcases h1 : validateOrderItem a with _ | v
      · exact ⟨a, by simp, h1⟩
      · rcases h2 : validateItems rest with _ | vs
        · rcases ih.1 h2 with ⟨x, hx, hxx⟩
          exact ⟨x, by simp [hx], hxx⟩
        · rw [validateItems, h1, h2] at h
          simp at h
    · rintro ⟨x, hx, hxx⟩
      rcases List.mem_cons.1 hx with rfl | hx'
      · rw [validateItems, hxx]
      · have h2 : validateItems rest = none := ih.2 ⟨x, hx', hxx⟩
        rw [validateItems, h2]
        rcases validateOrderItem a with _ | v <;> rfl

/-- The payload of the C2 counterexample: a well-formed order whose `items`
list is empty. -/
def emptyItemsOrder : OrderPayload :=
  { customer := some ⟨some "Asha", none, none, none⟩, items := some [],
    subtotal := some 0, shipping := none, total := some 0, status := none }

/-- C2 counterexample: order-creation validation accepts a payload whose
`items` list is empty — `items: List[OrderItem]` carries no minimum length, so
the payload the claim says must be rejected validates successfully. -/
theorem validateOrder_accepts_empty_items :
    validateOrder emptyItemsOrder
      = some { customer := ⟨"Asha", none, none, none⟩, items := [],
               subtotal := 0, shipping := 0, total := 0,
               status := "received" } := by
  decide

/-- C2 as amended: order-creation validation fails exactly when some item has
`qty < 1` or `unitPrice < 0`, or `customer` or `customer.name` is missing, or
`items` is missing, or one of the other required fields (`subtotal`, `total`)
is missing; an empty `items` list is accepted. -/
theorem validateOrder_none_iff (p : OrderPayload) :
    validateOrder p = none ↔
      (p.customer = none ∨ (∃ c, p.customer = some c ∧ c.name = none)
       ∨ p.items = none
       ∨ (∃ l, p.items = some l ∧ ∃ it ∈ l, it.qty < 1 ∨ it.unitPrice < 0)
       ∨ p.subtotal = none ∨ p.total = none) := by
  rcases hc : p.customer with _ | c <;>
    rcases hi : p.items with _ | l <;>
      rcases hs : p.subtotal with _ | sub <;>
        rcases ht : p.total with _ | tot <;>
          simp only [validateOrder, hc, hi, hs, ht] <;>
            try simp
  rcases hn : c.name with _ | nm
  · have hvc : validateCustomer c = none := by rw [validateCustomer, hn]
    rw [hvc]
    rcases hvi : validateItems l with _ | vs <;> simp [hn]
  · have hvc : validateCustomer c = some ⟨nm, c.email, c.phone, c.address⟩ := by
      rw [validateCustomer, hn]
    rw [hvc]
    rcases hvi : validateItems l with _ | vs
    · rcases (validateItems_eq_none l).1 hvi with ⟨x, hx, hxx⟩
      simp only [hn]
      simp
      exact ⟨x, hx, (validateOrderItem_eq_none x).1 hxx⟩
    · simp only [hn]
      simp
      intro x hx
      constructor
      · by_contra hq
        have hnone : validateItems l = none :=
          (validateItems_eq_none l).2
            ⟨x, hx, (validateOrderItem_eq_none x).2 (Or.inl (not_le.1 hq))⟩
        rw [hnone] at hvi
        exact Option.noConfusion hvi
      · by_contra hp
        have hnone : validateItems l = none :=
          (validateItems_eq_none l).2
            ⟨x, hx, (validateOrderItem_eq_none x).2 (Or.inr (not_le.1 hp))⟩
        rw [hnone] at hvi
        exact Option.noConfusion hvi

/-! ## Fresh-identifier lemmas for the create-then-read claim -/

lemma hexDigitsAux_length (k n : Nat) : (hexDigitsAux k n).length = k := by
  induction k generalizing n with
  | zero => rfl
  | succ k ih => simp [hexDigitsAux, ih]

lemma hexChar_mem (n : Nat) : hexChar n ∈ hexAlphabet := by
  unfold hexChar
  rcases h : hexAlphabet[n % 16]? with _ | c
  · simp [List.getD, List.get?_eq_getElem?, h]
    decide
  · simp only [List.getD, List.get?_eq_getElem?, h, Option.getD_some]
    exact List.getElem?_mem h

lemma hexAlphabet_props : ∀ c ∈ hexAlphabet, isHexChar c = true ∧ c.toLower = c := by
  decide

lemma hexDigitsAux_mem (k n : Nat) : ∀ c ∈ hexDigitsAux k n, c ∈ hexAlphabet := by
  induction k generalizing n with
  | zero => simp [hexDigitsAux]
  | succ k ih =>
    intro c hc
    simp only [hexDigitsAux, List.mem_append, List.mem_singleton] at hc
    rcases hc with hc | hc
    · exact ih _ c hc
    · rw [hc]
      exact hexChar_mem n

lemma natToHex24_valid (n : Nat) : isValidObjectId (natToHex24 n) = true := by
  unfold isValidObjectId natToHex24
  rw [Bool.and_eq_true]
  constructor
  · have h : (String.mk (hexDigitsAux 24 n)).toList = hexDigitsAux 24 n := rfl
    rw [h, hexDigitsAux_length]
    rfl
  · rw [List.all_eq_true]
    intro c hc
    exact (hexAlphabet_props c (hexDigitsAux_mem 24 n c hc)).1

lemma lowerChars_fixed (l : List Char) (h : ∀ c ∈ l, c.toLower = c) :
    lowerChars l = l := by
  induction l with
  | nil => rfl
  | cons a t ih =>
    simp only [lowerChars, List.map_cons, h a (by simp)]
    have := ih (fun c hc => h c (by simp [hc]))
    simp only [lowerChars] at this
    rw [this]

lemma parse_natToHex24 (n : Nat) :
    parseObjectId (natToHex24 n) = some (natToHex24 n) := by
  unfold parseObjectId
  rw [natToHex24_valid]
  have h : lowerChars (natToHex24 n).toList = (natToHex24 n).toList :=
    lowerChars_fixed _ (fun c hc =>
      (hexAlphabet_props c (hexDigitsAux_mem 24 n c hc)).2)
  simp only [h]
  rfl

lemma natToHex24_ne_empty (n : Nat) : natToHex24 n ≠ "" := by
  intro h
  have h24 : (natToHex24 n).toList.length = 24 := hexDigitsAux_length 24 n
  rw [h] at h24
  simp at h24

lemma findOne_append_fresh (l : List Doc) (d : Doc) (i : String)
    (hfresh : ∀ x ∈ l, x.lookup "_id" ≠ some (Value.oid i))
    (hd : d.lookup "_id" = some (Value.oid i)) :
    findOne (l ++ [d]) i = some d := by
  unfold findOne
  rw [List.find?_append]
  have h1 : l.find? (fun x => x.lookup "_id" == some (Value.oid i)) = none :=
    List.find?_eq_none.2 (fun x hx => by simp [hfresh x hx])
  rw [h1]
  simp [List.find?, hd]

lemma dumpProduct_lookup_id (pin : ProductIn) :
    (dumpProduct pin).lookup "_id" = none := rfl

lemma stored_lookup_id (pin : ProductIn) (i : String) :
    (dumpProduct pin ++ [("_id", Value.oid i)]).lookup "_id"
      = some (Value.oid i) := by
  rw [lookup_append, dumpProduct_lookup_id]
  rfl

lemma serialize_stored (pin : ProductIn) (i : String) :
    serialize_doc (dumpProduct pin ++ [("_id", Value.oid i)])
      = dumpProduct pin ++ [("id", Value.str i)] := by
  have hne : dumpProduct pin ++ [("_id", Value.oid i)] ≠ [] := by
    simp [dumpProduct]
  unfold serialize_doc
  rw [if_neg hne, stored_lookup_id]
  have hfil : (dumpProduct pin ++ [("_id", Value.oid i)]).filter
      (fun kv => !(kv.1 == "_id")) = dumpProduct pin := by
    rw [List.filter_append]
    simp [dumpProduct]
  rw [hfil]
  rfl

/-- Inversion of product validation: a successful validation pins every field
of the result to the payload's submitted value or the declared default. -/
lemma validateProduct_some_fields (p : ProductPayload) (pin : ProductIn)
    (hv : validateProduct p = some pin) :
    p.title = some pin.title ∧ p.price = some pin.price
    ∧ p.category = some pin.category
    ∧ pin.description = p.description
    ∧ pin.currency = p.currency.getD "INR"
    ∧ pin.images = p.images.getD []
    ∧ pin.materials = p.materials.getD []
    ∧ pin.stock = p.stock.getD 0
    ∧ pin.vendor = p.vendor
    ∧ pin.artisanStory = p.artisanStory := by
  unfold validateProduct at hv
  rcases h1 : p.title with _ | t
  · rw [h1] at hv
    rcases h2 : p.price with _ | pr <;> rw [h2] at hv <;>
      rcases h3 : p.category with _ | c <;> rw [h3] at hv <;> simp at hv
  · rw [h1] at hv
    rcases h2 : p.price with _ | pr
    · rw [h2] at hv
      rcases h3 : p.category with _ | c <;> rw [h3] at hv <;> simp at hv
    · rw [h2] at hv
      rcases h3 : p.category with _ | c
      · rw [h3] at hv
        simp at hv
      · rw [h3] at hv
        have hv' : (if pr < 0 then (none : Option ProductIn)
              else some { title := t, description := p.description,
                          price := pr, currency := p.currency.getD "INR",
                          category := c, images := p.images.getD [],
                          materials := p.materials.getD [],
                          stock := p.stock.getD 0, vendor := p.vendor,
                          artisanStory := p.artisanStory })
            = some pin := hv
        by_cases hneg : pr < 0
        · rw [if_pos hneg] at hv'
          simp at hv'
        · rw [if_neg hneg] at hv'
          have hrec := Option.some.inj hv'
          rw [← hrec]
          simp

/-- C1: for every payload accepted by product-creation validation (against a
store whose fresh identifier is not already in use, as the store guarantees),
`create_product` persists exactly one new record, answers the serialized
stored record re-read from the store after the write, and `get_product` on
the returned identifier yields that same record — every submitted field equal
to the payload's and `id` a non-empty string. -/
theorem create_product_then_get_consistent (s : Store) (p : ProductPayload)
    (pin : ProductIn) (hv : validateProduct p = some pin)
    (hfresh : ∀ d ∈ s.product,
      d.lookup "_id" ≠ some (Value.oid (natToHex24 s.nextId))) :
    create_product (some s) p
      = (.ok (some (dumpProduct pin ++ [("id", Value.str (natToHex24 s.nextId))])),
         some { product := s.product
                  ++ [dumpProduct pin ++ [("_id", Value.oid (natToHex24 s.nextId))]],
                order := s.order, nextId := s.nextId + 1 })
    ∧ (s.product
        ++ [dumpProduct pin ++ [("_id", Value.oid (natToHex24 s.nextId))]]).length
      = s.product.length + 1
    ∧ get_product
        (some { product := s.product
                  ++ [dumpProduct pin ++ [("_id", Value.oid (natToHex24 s.nextId))]],
                order := s.order, nextId := s.nextId + 1 })
        (natToHex24 s.nextId)
      = .ok (dumpProduct pin ++ [("id", Value.str (natToHex24 s.nextId))])
    ∧ natToHex24 s.nextId ≠ ""
    ∧ (∀ v, p.title = some v → pin.title = v)
    ∧ (∀ v, p.price = some v → pin.price = v)
    ∧ (∀ v, p.category = some v → pin.category = v)
    ∧ (∀ v, p.currency = some v → pin.currency = v)
    ∧ (∀ v, p.images = some v → pin.images = v)
    ∧ (∀ v, p.materials = some v → pin.materials = v)
    ∧ (∀ v, p.stock = some v → pin.stock = v)
    ∧ pin.description = p.description
    ∧ pin.vendor = p.vendor
    ∧ pin.artisanStory = p.artisanStory := by
  obtain ⟨ht, hpr, hcat, hdesc, hcur, himg, hmat, hstk, hven, hart⟩ :=
    validateProduct_some_fields p pin hv
  have hstored := stored_lookup_id pin (natToHex24 s.nextId)
  have hfind : findOne
      (s.product ++ [dumpProduct pin ++ [("_id", Value.oid (natToHex24 s.nextId))]])
      (natToHex24 s.nextId)
      = some (dumpProduct pin ++ [("_id", Value.oid (natToHex24 s.nextId))]) :=
    findOne_append_fresh _ _ _ hfresh hstored
  have hne : dumpProduct pin ++ [("_id", Value.oid (natToHex24 s.nextId))] ≠ [] := by
    simp [dumpProduct]
  refine ⟨?_, by simp, ?_, natToHex24_ne_empty _, ?_, ?_, ?_, ?_, ?_, ?_, ?_,
    hdesc, hven, hart⟩
  · simp only [create_product, hv, create_document, if_pos]
    simp only [parse_natToHex24, hfind, Option.map_some']
    rw [serialize_stored]
  · simp only [get_product, parse_natToHex24, hfind]
    rw [if_neg hne, serialize_stored]
  · intro v h
    rw [ht] at h
    exact Option.some.inj h
  · intro v h
    rw [hpr] at h
    exact Option.some.inj h
  · intro v h
    rw [hcat] at h
    exact Option.some.inj h
  · intro v h
    rw [hcur, h]
    rfl
  · intro v h
    rw [himg, h]
    rfl
  · intro v h
    rw [hmat, h]
    rfl
  · intro v h
    rw [hstk, h]
    rfl

/-- The validated model of `validProductPayload` (defaults applied). -/
def clayPotIn : ProductIn :=
  { title := "Clay Pot", description := none, price := 250, currency := "INR",
    category := "pottery", images := [], materials := [], stock := 0,
    vendor := none, artisanStory := none }

/-- Witness for C1: create-then-get on an empty store with the Clay Pot
payload of the spec's scenario. -/
theorem create_product_then_get_consistent_witness :
    create_product (some ⟨[], [], 0⟩) validProductPayload
      = (.ok (some (dumpProduct clayPotIn ++ [("id", Value.str (natToHex24 0))])),
         some ⟨[dumpProduct clayPotIn ++ [("_id", Value.oid (natToHex24 0))]], [], 1⟩)
    ∧ ([dumpProduct clayPotIn ++ [("_id", Value.oid (natToHex24 0))]] : List Doc).length
      = 1
    ∧ get_product
        (some ⟨[dumpProduct clayPotIn ++ [("_id", Value.oid (natToHex24 0))]], [], 1⟩)
        (natToHex24 0)
      = .ok (dumpProduct clayPotIn ++ [("id", Value.str (natToHex24 0))])
    ∧ natToHex24 0 ≠ ""
    ∧ (∀ v, validProductPayload.title = some v → clayPotIn.title = v)
    ∧ (∀ v, validProductPayload.price = some v → clayPotIn.price = v)
    ∧ (∀ v, validProductPayload.category = some v → clayPotIn.category = v)
    ∧ (∀ v, validProductPayload.currency = some v → clayPotIn.currency = v)
    ∧ (∀ v, validProductPayload.images = some v → clayPotIn.images = v)
    ∧ (∀ v, validProductPayload.materials = some v → clayPotIn.materials = v)
    ∧ (∀ v, validProductPayload.stock = some v → clayPotIn.stock = v)
    ∧ clayPotIn.description = validProductPayload.description
    ∧ clayPotIn.vendor = validProductPayload.vendor
    ∧ clayPotIn.artisanStory = validProductPayload.artisanStory :=
  create_product_then_get_consistent ⟨[], [], 0⟩ validProductPayload clayPotIn
    (by decide) (by simp)

end FlamesBlue
